import Mathlib

/-!
Verification of the PandaCare chat relay core (`chat_server.rs`, `handler.rs`).

The connection-registry actor (`ChatServer::run`) is embedded as a pure step
function over an explicit state: the in-memory connection map (an association
list mirroring the `HashMap<UserId, Sender<Message>>`), the message store (a
list of records standing for the MongoDB collection, in insertion order), and
a counter assigning fresh record ids (MongoDB assigns `_id` on insert).
Outbound channels are identified by numbers; a push onto a channel is recorded
as an event rather than modelled as a queue, since the claims are about which
pushes happen and with which payloads.

The fallible external collaborators (store queries, cursor iteration, store
inserts and updates, channel pushes) are driven by an explicit per-command
fault schedule `Faults`; each branch of the Rust code that matches on an
`Err` is mirrored by the corresponding fault flag.  The `?` operator on the
cursor in `ChatServer::run` propagates an error out of `run`, which is
modelled by a `fatal` flag terminating the command loop.
-/

namespace ChatV2

/-- A stored message record, mirroring `Message` in `chat_server.rs`
(`_id` is always assigned by the time a record is read back, so it is a
plain `Nat` here; BSON timestamps are modelled as `Nat`). -/
structure Msg where
  id : Nat
  content : String
  delivered : Bool
  recipient_id : Nat
  sender_id : Nat
  timestamp : Nat
  last_updated : Nat
deriving Repr, DecidableEq

/-- The MongoDB `messages` collection, in insertion order. -/
abbrev Store := List Msg

/-- The registry's connection map, `UserId -> channel id`. -/
abbrev Conns := List (Nat × Nat)

/-- Fault schedule for the external collaborators during one command:
which store/channel operations fail while the command is processed. -/
structure Faults where
  findFails : Bool
  cursorFailsAt : Option Nat
  pushFails : List Nat
  updateFails : List Nat
  insertFails : Bool
  errText : String
deriving Repr, DecidableEq

/-- The all-succeed schedule. -/
def noFaults : Faults :=
  { findFails := false, cursorFailsAt := none, pushFails := [], updateFails := [],
    insertFails := false, errText := "" }

/-- Observable effects of processing a command: a push onto a user's
outbound channel, a store `update_one` flipping `delivered`, the one-shot
reply to a `SendMessage` caller, and `println!` logging. -/
inductive Event where
  | pushed (ch : Nat) (m : Msg)
  | updated (id : Nat) (now : Nat)
  | reply (s : String)
  | log (s : String)
deriving Repr, DecidableEq

/-- `HashMap::get` on the connection map. -/
def connGet (l : Conns) (u : Nat) : Option Nat :=
  (l.find? (fun p => p.1 == u)).map (fun p => p.2)

/-- `HashMap::contains_key` on the connection map. -/
def connContains (l : Conns) (u : Nat) : Bool :=
  (l.find? (fun p => p.1 == u)).isSome

/-- `HashMap::insert`: overwrite any existing entry for `u`. -/
def connInsert (l : Conns) (u ch : Nat) : Conns :=
  (u, ch) :: l.filter (fun p => p.1 != u)

/-- `HashMap::remove`: drop the entry for `u` if present. -/
def connRemove (l : Conns) (u : Nat) : Conns :=
  l.filter (fun p => p.1 != u)

/-- `update_one` with filter `_id = i` and `$set delivered:true,
last_updated:now`: updates the first record whose id matches. -/
def updateDelivered : Store → Nat → Nat → Store
  | [], _, _ => []
  | m :: rest, i, now =>
    if m.id == i then
      { m with delivered := true, last_updated := now } :: rest
    else
      m :: updateDelivered rest i now

/-- A BSON value as relevant to the replay filter: a `bson::Uuid` struct
field serializes as BSON Binary (subtype 4), while `Uuid::to_string()`
produces a BSON String; MongoDB equality never matches values of
different BSON types. -/
inductive BsonVal where
  | binary (uuid : Nat)
  | str (s : String)
deriving Repr, DecidableEq

/-- The textual rendering of a UUID (`Uuid::to_string()`); its exact
format is irrelevant here because the filter comparison already fails on
the BSON type. -/
def uuidStr (u : Nat) : String := toString u

/-- The `find` filter of the Connect replay as the code builds it: the
document field `recipient_id` must equal `user_id.to_string()` — a BSON
String — and `delivered` must be false.  The stored `recipient_id` is
the Binary serialization of a `bson::Uuid` (as the insert path
serializes the `Message` struct, and as the aggregation in `server.rs`
corroborates by matching on Binary subtype Uuid), so the first equality
never holds and the query matches nothing. -/
def backlog (s : Store) (u : Nat) : List Msg :=
  s.filter (fun m =>
    (BsonVal.binary m.recipient_id == BsonVal.str (uuidStr u)) && !m.delivered)

/-- The Connect replay loop over the query-result snapshot.  `i` counts
`try_next` calls: if the cursor errors at call `i` the error propagates via
`?` (fatal flag).  A failed push is logged and skips the update; a failed
update is logged; a successful push is followed by `update_one`. -/
def replay (ch now : Nat) (f : Faults) : List Msg → Nat → Store → Store × List Event × Bool
  | [], i, s =>
    if f.cursorFailsAt = some i then (s, [], true) else (s, [], false)
  | m :: rest, i, s =>
    if f.cursorFailsAt = some i then
      (s, [], true)
    else if f.pushFails.contains m.id then
      let r := replay ch now f rest (i + 1) s
      (r.1, Event.log "Failed to send undelivered message" :: r.2.1, r.2.2)
    else if f.updateFails.contains m.id then
      let r := replay ch now f rest (i + 1) s
      (r.1, Event.pushed ch m :: Event.log "Failed to update message status" :: r.2.1, r.2.2)
    else
      let r := replay ch now f rest (i + 1) (updateDelivered s m.id now)
      (r.1, Event.pushed ch m :: Event.updated m.id now :: r.2.1, r.2.2)

/-- The registry's command variants (`enum Command`); the oneshot reply
channel is modelled by the `Event.reply` the processing emits. -/
inductive Command where
  | connect (user_id ch : Nat)
  | disconnect (user_id : Nat)
  | sendMessage (content : String) (sender_id recipient_id : Nat)
deriving Repr, DecidableEq

/-- The state owned by the single registry consumer. -/
structure ServerState where
  connections : Conns
  store : Store
  nextId : Nat
deriving Repr, DecidableEq

/-- One iteration of the `while let Some(command)` loop in
`ChatServer::run`: returns the new state, the emitted events, and whether
the iteration returned an error out of `run` (the `?` on `try_next`). -/
def stepCommand (st : ServerState) (c : Command) (f : Faults) (now : Nat) :
    ServerState × List Event × Bool :=
  match c with
  | .connect u ch =>
    let conns := connInsert st.connections u ch
    if f.findFails then
      ({ st with connections := conns },
        [Event.log "Error fetching undelivered messages"], false)
    else
      let r := replay ch now f (backlog st.store u) 0 st.store
      ({ st with connections := conns, store := r.1 }, r.2.1, r.2.2)
  | .disconnect u =>
    ({ st with connections := connRemove st.connections u }, [], false)
  | .sendMessage content sender recipient =>
    let delivered := connContains st.connections recipient
    let m : Msg :=
      { id := st.nextId, content := content, delivered := delivered,
        recipient_id := recipient, sender_id := sender,
        timestamp := now, last_updated := now }
    if f.insertFails then
      (st, [Event.log "Failed to save message",
            Event.reply ("Failed to send message: " ++ f.errText)], false)
    else
      let st' := { st with store := st.store ++ [m], nextId := st.nextId + 1 }
      let pushEvs :=
        if delivered then
          match connGet st.connections recipient with
          | some ch =>
            if f.pushFails.contains m.id then [Event.log "Failed to deliver message"]
            else [Event.pushed ch m]
          | none => []
        else []
      (st', pushEvs ++ [Event.reply "Message sent successfully"], false)

/-- The full consumer loop: processes commands in order until the queue is
drained or an iteration propagates an error out of `run`, in which case the
remaining commands are never received. -/
def runServer (st : ServerState) : List (Command × Faults × Nat) → ServerState × List Event × Bool
  | [] => (st, [], false)
  | (c, f, now) :: rest =>
    let r := stepCommand st c f now
    if r.2.2 then (r.1, r.2.1, true)
    else
      let r' := runServer r.1 rest
      (r'.1, r.2.1 ++ r'.2.1, r'.2.2)

/-!
The per-connection session loop (`websocket_handler` in `handler.rs`).

JSON deserialization is external (`serde_json`), so a frame arrives here
already classified: a text frame carries the result of parsing it as a
`WebSocketMessage` envelope (`none` when the payload is not valid JSON for
the envelope), and an envelope carries the result of parsing its flattened
payload as a `ChatMessage` (`none` when the fields do not deserialize).
The outcomes of the awaited calls (`chat_handle.send_message`,
`session.text`, `session.pong`, `session.ping`) are supplied by a
`SessEnv` environment, mirroring each `Err` branch of the code.
-/

/-- The `ChatMessage` payload of a `"message"` envelope. -/
structure ChatMessage where
  content : String
  recipient_id : Nat
deriving Repr, DecidableEq

/-- A parsed `WebSocketMessage` envelope: the `message_type` tag and the
result of deserializing the flattened payload as a `ChatMessage`. -/
structure WsEnvelope where
  message_type : String
  data : Option ChatMessage
deriving Repr, DecidableEq

/-- One inbound item of the `msg_stream`, as matched by the handler. -/
inductive InFrame where
  | text (parsed : Option WsEnvelope)
  | ping (bytes : String)
  | pong
  | closeFrame
  | binary
  | continuation
  | nop
  | recvError
deriving Repr, DecidableEq

/-- Outcomes of the session's awaited collaborator calls while handling
one frame: the `Result` of `chat_handle.send_message`, and whether
`session.text` / `session.pong` succeed. -/
structure SessEnv where
  sendOutcome : Except String String
  textOk : Bool
  pongOk : Bool
deriving Repr

/-- Observable actions of the inbound loop while handling one frame. -/
inductive OutAct where
  | sendInvoked (content : String) (recipient : Nat)
  | textOut (s : String)
  | pongOut (bytes : String)
  | pingOut
  | closeOut
deriving Repr, DecidableEq

/-- The structured error envelope
`format!("\x7b\"message_type\":\"error\",\"message\":\"\x7b\x7d\"\x7d", e)`. -/
def errorFrame (e : String) : String :=
  "\x7b\"message_type\":\"error\",\"message\":\"" ++ e ++ "\"\x7d"

/-- The structured pong reply to a `"ping"` envelope. -/
def pongFrame : String := "\x7b\"message_type\":\"pong\"\x7d"

/-- The structured reply to an unrecognized `message_type`. -/
def unknownTypeFrame : String := errorFrame "Unknown message type"

/-- One iteration of the `while let Some(msg) = msg_stream.next()` loop:
given the collaborator outcomes, the current instant and the shared
`last_heartbeat`, and the inbound frame, returns the emitted actions,
whether the loop continues (`false` = `break`), and the new
`last_heartbeat`. -/
def handleFrame (env : SessEnv) (now last : Nat) (fr : InFrame) :
    List OutAct × Bool × Nat :=
  match fr with
  | .text parsed =>
    match parsed with
    | none => ([], true, last)
    | some ws =>
      if ws.message_type = "message" then
        match ws.data with
        | none => ([], true, last)
        | some cm =>
          match env.sendOutcome with
          | .ok response =>
            ([OutAct.sendInvoked cm.content cm.recipient_id, OutAct.textOut response],
              env.textOk, last)
          | .error e =>
            ([OutAct.sendInvoked cm.content cm.recipient_id, OutAct.textOut (errorFrame e)],
              env.textOk, last)
      else if ws.message_type = "ping" then
        ([OutAct.textOut pongFrame], env.textOk, last)
      else
        ([OutAct.textOut unknownTypeFrame], env.textOk, last)
  | .ping bytes => ([OutAct.pongOut bytes], env.pongOk, now)
  | .pong => ([], true, now)
  | .closeFrame => ([OutAct.closeOut], false, last)
  | .binary => ([], true, last)
  | .continuation => ([], true, last)
  | .nop => ([], true, last)
  | .recvError => ([], false, last)

/-- `CLIENT_TIMEOUT`, in seconds. -/
def clientTimeout : Nat := 10

/-- The heartbeat-tick branch of the outbound duty's `select!` loop:
if the elapsed time since `last_heartbeat` exceeds `CLIENT_TIMEOUT`, the
session is closed and the loop breaks; otherwise a protocol ping is sent
(and a failing ping breaks the loop). -/
def tickStep (pingOk : Bool) (now last : Nat) : List OutAct × Bool :=
  if now - last > clientTimeout then ([OutAct.closeOut], false)
  else ([OutAct.pingOut], pingOk)

/-! Helper notions and lemmas about the embedded operations. -/

/-- Look a record up by id (`find_one` on `_id`). -/
def getById (s : Store) (i : Nat) : Option Msg :=
  s.find? (fun m => m.id == i)

/-- The effect of one replay iteration on the store (push failure and
update failure leave the store untouched; otherwise `update_one` runs). -/
def replayUpd (now : Nat) (f : Faults) (s : Store) (m : Msg) : Store :=
  if f.pushFails.contains m.id then s
  else if f.updateFails.contains m.id then s
  else updateDelivered s m.id now

theorem connGet_insert_self (l : Conns) (u ch : Nat) :
    connGet (connInsert l u ch) u = some ch := by
  simp [connGet, connInsert, List.find?]

theorem connContains_of_get (l : Conns) (u ch : Nat)
    (h : connGet l u = some ch) : connContains l u = true := by
  simp only [connGet, Option.map_eq_some'] at h
  obtain ⟨p, hp, _⟩ := h
  simp [connContains, hp]

theorem connRemove_absent (l : Conns) (u : Nat)
    (h : connContains l u = false) : connRemove l u = l := by
  have h' : l.find? (fun p => p.1 == u) = none := by
    cases hf : l.find? (fun p => p.1 == u) with
    | none => rfl
    | some p => rw [connContains, hf] at h; simp at h
  have hall := List.find?_eq_none.mp h'
  exact List.filter_eq_self.mpr fun p hp => by
    have := hall p hp
    simp only [beq_iff_eq] at this
    simp [this]

theorem filter_key_of_filter_ne (l : Conns) (u : Nat) :
    (l.filter (fun p => p.1 != u)).filter (fun p => p.1 == u) = [] := by
  induction l with
  | nil => rfl
  | cons p rest ih =>
    by_cases h : p.1 = u
    · rw [List.filter_cons_of_neg (by simp [h])]
      exact ih
    · rw [List.filter_cons_of_pos (by simp [h]),
        List.filter_cons_of_neg (by simp [h])]
      exact ih

theorem connInsert_unique_entry (l : Conns) (u ch : Nat) :
    ((connInsert l u ch).filter (fun p => p.1 == u)).length = 1 := by
  unfold connInsert
  rw [List.filter_cons_of_pos (by simp)]
  simp [filter_key_of_filter_ne]

theorem getById_updateDelivered_other (s : Store) (i j now : Nat) (h : i ≠ j) :
    getById (updateDelivered s i now) j = getById s j := by
  induction s with
  | nil => rfl
  | cons m rest ih =>
    by_cases hm : m.id = i
    · unfold updateDelivered
      rw [if_pos (by simp [hm])]
      unfold getById
      rw [List.find?_cons_of_neg _ (by simp only [beq_iff_eq, hm]; exact h),
        List.find?_cons_of_neg _ (by simp only [beq_iff_eq, hm]; exact h)]
    · unfold updateDelivered
      rw [if_neg (by simp [hm])]
      by_cases hj : m.id = j
      · unfold getById
        rw [List.find?_cons_of_pos _ (by simp [hj]),
          List.find?_cons_of_pos _ (by simp [hj])]
      · unfold getById
        rw [List.find?_cons_of_neg _ (by simp [hj]),
          List.find?_cons_of_neg _ (by simp [hj])]
        exact ih

theorem getById_updateDelivered_self (s : Store) (i now : Nat) (m : Msg)
    (h : getById s i = some m) :
    getById (updateDelivered s i now) i =
      some { m with delivered := true, last_updated := now } := by
  induction s with
  | nil => simp [getById] at h
  | cons x rest ih =>
    by_cases hx : x.id = i
    · unfold getById at h
      rw [List.find?_cons_of_pos _ (by simp [hx])] at h
      unfold updateDelivered
      rw [if_pos (by simp [hx])]
      unfold getById
      rw [List.find?_cons_of_pos _ (by simp [hx])]
      rw [← Option.some_inj.mp h]
    · unfold getById at h
      rw [List.find?_cons_of_neg _ (by simp [hx])] at h
      unfold updateDelivered
      rw [if_neg (by simp [hx])]
      unfold getById
      rw [List.find?_cons_of_neg _ (by simp [hx])]
      exact ih h

theorem getById_mem_nodup (s : Store) (m : Msg)
    (hnd : (s.map Msg.id).Nodup) (hm : m ∈ s) : getById s m.id = some m := by
  induction s with
  | nil => cases hm
  | cons x rest ih =>
    rcases List.mem_cons.mp hm with h | h
    · subst h
      unfold getById
      rw [List.find?_cons_of_pos _ (by simp)]
    · simp only [List.map, List.nodup_cons] at hnd
      have hxm : x.id ≠ m.id := by
        intro he
        exact hnd.1 (he ▸ List.mem_map_of_mem Msg.id h)
      unfold getById
      rw [List.find?_cons_of_neg _ (by simp [hxm])]
      exact ih hnd.2 h

theorem getById_foldl_replayUpd (now : Nat) (f : Faults) (l : List Msg) (s : Store) (i : Nat)
    (h : ∀ x ∈ l, x.id ≠ i ∨ f.pushFails.contains x.id = true) :
    getById (l.foldl (replayUpd now f) s) i = getById s i := by
  induction l generalizing s with
  | nil => rfl
  | cons x rest ih =>
    simp only [List.foldl]
    rw [ih _ fun y hy => h y (List.mem_cons_of_mem x hy)]
    rcases h x (List.mem_cons_self x rest) with hne | hpf
    · by_cases hp : f.pushFails.contains x.id = true
      · unfold replayUpd
        rw [if_pos hp]
      · by_cases hu : f.updateFails.contains x.id = true
        · unfold replayUpd
          rw [if_neg hp, if_pos hu]
        · unfold replayUpd
          rw [if_neg hp, if_neg hu]
          exact getById_updateDelivered_other s x.id i now hne
    · unfold replayUpd
      rw [if_pos hpf]

theorem contains_ne_true {l : List Nat} {a : Nat} (h : l.contains a = false) :
    ¬ l.contains a = true := fun hc => by rw [hc] at h; cases h

theorem replay_nil_ok (ch now : Nat) (f : Faults) (i : Nat) (s : Store)
    (hcur : ¬ f.cursorFailsAt = some i) :
    replay ch now f [] i s = (s, [], false) := by
  simp only [replay]
  rw [if_neg hcur]

theorem replay_cons_cursor (ch now : Nat) (f : Faults) (m : Msg) (rest : List Msg)
    (i : Nat) (s : Store) (hcur : f.cursorFailsAt = some i) :
    replay ch now f (m :: rest) i s = (s, [], true) := by
  simp only [replay]
  rw [if_pos hcur]

theorem replay_cons_pushfail (ch now : Nat) (f : Faults) (m : Msg) (rest : List Msg)
    (i : Nat) (s : Store) (hcur : ¬ f.cursorFailsAt = some i)
    (hp : f.pushFails.contains m.id = true) :
    replay ch now f (m :: rest) i s =
      ((replay ch now f rest (i + 1) s).1,
        Event.log "Failed to send undelivered message" :: (replay ch now f rest (i + 1) s).2.1,
        (replay ch now f rest (i + 1) s).2.2) := by
  simp only [replay]
  rw [if_neg hcur, if_pos hp]

theorem replay_cons_updfail (ch now : Nat) (f : Faults) (m : Msg) (rest : List Msg)
    (i : Nat) (s : Store) (hcur : ¬ f.cursorFailsAt = some i)
    (hp : ¬ f.pushFails.contains m.id = true) (hu : f.updateFails.contains m.id = true) :
    replay ch now f (m :: rest) i s =
      ((replay ch now f rest (i + 1) s).1,
        Event.pushed ch m :: Event.log "Failed to update message status" ::
          (replay ch now f rest (i + 1) s).2.1,
        (replay ch now f rest (i + 1) s).2.2) := by
  simp only [replay]
  rw [if_neg hcur, if_neg hp, if_pos hu]

theorem replay_cons_ok (ch now : Nat) (f : Faults) (m : Msg) (rest : List Msg)
    (i : Nat) (s : Store) (hcur : ¬ f.cursorFailsAt = some i)
    (hp : ¬ f.pushFails.contains m.id = true) (hu : ¬ f.updateFails.contains m.id = true) :
    replay ch now f (m :: rest) i s =
      ((replay ch now f rest (i + 1) (updateDelivered s m.id now)).1,
        Event.pushed ch m :: Event.updated m.id now ::
          (replay ch now f rest (i + 1) (updateDelivered s m.id now)).2.1,
        (replay ch now f rest (i + 1) (updateDelivered s m.id now)).2.2) := by
  simp only [replay]
  rw [if_neg hcur, if_neg hp, if_neg hu]

theorem replay_not_fatal (ch now : Nat) (f : Faults) (hc : f.cursorFailsAt = none)
    (l : List Msg) (i : Nat) (s : Store) :
    (replay ch now f l i s).2.2 = false := by
  induction l generalizing i s with
  | nil => rw [replay_nil_ok ch now f i s (by simp [hc])]
  | cons m rest ih =>
    by_cases hp : f.pushFails.contains m.id = true
    · rw [replay_cons_pushfail ch now f m rest i s (by simp [hc]) hp]
      exact ih (i + 1) s
    · by_cases hu : f.updateFails.contains m.id = true
      · rw [replay_cons_updfail ch now f m rest i s (by simp [hc]) hp hu]
        exact ih (i + 1) s
      · rw [replay_cons_ok ch now f m rest i s (by simp [hc]) hp hu]
        exact ih (i + 1) (updateDelivered s m.id now)

theorem replay_store_foldl (ch now : Nat) (f : Faults) (hc : f.cursorFailsAt = none)
    (l : List Msg) (i : Nat) (s : Store) :
    (replay ch now f l i s).1 = l.foldl (replayUpd now f) s := by
  induction l generalizing i s with
  | nil =>
    rw [replay_nil_ok ch now f i s (by simp [hc])]
    rfl
  | cons m rest ih =>
    by_cases hp : f.pushFails.contains m.id = true
    · rw [replay_cons_pushfail ch now f m rest i s (by simp [hc]) hp]
      simp only [List.foldl]
      rw [ih (i + 1) s]
      unfold replayUpd
      rw [if_pos hp]
    · by_cases hu : f.updateFails.contains m.id = true
      · rw [replay_cons_updfail ch now f m rest i s (by simp [hc]) hp hu]
        simp only [List.foldl]
        rw [ih (i + 1) s]
        unfold replayUpd
        rw [if_neg hp, if_pos hu]
      · rw [replay_cons_ok ch now f m rest i s (by simp [hc]) hp hu]
        simp only [List.foldl]
        rw [ih (i + 1) (updateDelivered s m.id now)]
        unfold replayUpd
        rw [if_neg hp, if_neg hu]

theorem replay_pushed_mem (ch now : Nat) (f : Faults) (hc : f.cursorFailsAt = none)
    (l : List Msg) (i : Nat) (s : Store) (m : Msg) (hm : m ∈ l)
    (hp : f.pushFails.contains m.id = false) :
    Event.pushed ch m ∈ (replay ch now f l i s).2.1 := by
  induction l generalizing i s with
  | nil => cases hm
  | cons x rest ih =>
    rcases List.mem_cons.mp hm with he | he
    · subst he
      by_cases hu : f.updateFails.contains m.id = true
      · rw [replay_cons_updfail ch now f m rest i s (by simp [hc]) (contains_ne_true hp) hu]
        exact List.mem_cons_self _ _
      · rw [replay_cons_ok ch now f m rest i s (by simp [hc]) (contains_ne_true hp) hu]
        exact List.mem_cons_self _ _
    · by_cases hxp : f.pushFails.contains x.id = true
      · rw [replay_cons_pushfail ch now f x rest i s (by simp [hc]) hxp]
        exact List.mem_cons_of_mem _ (ih (i + 1) s he)
      · by_cases hxu : f.updateFails.contains x.id = true
        · rw [replay_cons_updfail ch now f x rest i s (by simp [hc]) hxp hxu]
          exact List.mem_cons_of_mem _ (List.mem_cons_of_mem _ (ih (i + 1) s he))
        · rw [replay_cons_ok ch now f x rest i s (by simp [hc]) hxp hxu]
          exact List.mem_cons_of_mem _
            (List.mem_cons_of_mem _ (ih (i + 1) (updateDelivered s x.id now) he))

theorem replay_updated_imp (ch now : Nat) (f : Faults)
    (l : List Msg) (i : Nat) (s : Store) (j n : Nat)
    (h : Event.updated j n ∈ (replay ch now f l i s).2.1) :
    ∃ m ∈ l, m.id = j ∧ f.pushFails.contains m.id = false := by
  induction l generalizing i s with
  | nil =>
    by_cases hcur : f.cursorFailsAt = some i
    · unfold replay at h
      rw [if_pos hcur] at h
      simp at h
    · rw [replay_nil_ok ch now f i s hcur] at h
      simp at h
  | cons x rest ih =>
    by_cases hcur : f.cursorFailsAt = some i
    · rw [replay_cons_cursor ch now f x rest i s hcur] at h
      simp at h
    · by_cases hxp : f.pushFails.contains x.id = true
      · rw [replay_cons_pushfail ch now f x rest i s hcur hxp] at h
        rcases List.mem_cons.mp h with he | he
        · cases he
        · obtain ⟨m, hm, hid, hmp⟩ := ih (i + 1) s he
          exact ⟨m, List.mem_cons_of_mem _ hm, hid, hmp⟩
      · by_cases hxu : f.updateFails.contains x.id = true
        · rw [replay_cons_updfail ch now f x rest i s hcur hxp hxu] at h
          rcases List.mem_cons.mp h with he | he
          · cases he
          rcases List.mem_cons.mp he with he' | he'
          · cases he'
          obtain ⟨m, hm, hid, hmp⟩ := ih (i + 1) s he'
          exact ⟨m, List.mem_cons_of_mem _ hm, hid, hmp⟩
        · rw [replay_cons_ok ch now f x rest i s hcur hxp hxu] at h
          rcases List.mem_cons.mp h with he | he
          · cases he
          rcases List.mem_cons.mp he with he' | he'
          · refine ⟨x, List.mem_cons_self _ _, ?_, by simpa using hxp⟩
            cases he'
            rfl
          obtain ⟨m, hm, hid, hmp⟩ := ih (i + 1) (updateDelivered s x.id now) he'
          exact ⟨m, List.mem_cons_of_mem _ hm, hid, hmp⟩

theorem replay_fatal_of_cursor (ch now : Nat) (f : Faults) (l : List Msg)
    (i k : Nat) (s : Store) (hcur : f.cursorFailsAt = some (i + k)) (hk : k ≤ l.length) :
    (replay ch now f l i s).2.2 = true := by
  induction l generalizing i k s with
  | nil =>
    have hz : k = 0 := Nat.le_zero.mp hk
    subst hz
    have hc : f.cursorFailsAt = some i := by simpa using hcur
    simp only [replay]
    rw [if_pos hc]
  | cons m rest ih =>
    cases k with
    | zero =>
      rw [replay_cons_cursor ch now f m rest i s hcur]
    | succ k' =>
      have hne : ¬ f.cursorFailsAt = some i := by
        rw [hcur]
        intro hco
        have := Option.some_inj.mp hco
        omega
      have hcur' : f.cursorFailsAt = some ((i + 1) + k') := by
        rw [hcur]
        congr 1
        omega
      have hk' : k' ≤ rest.length := by
        simp only [List.length_cons] at hk
        omega
      by_cases hp : f.pushFails.contains m.id = true
      · rw [replay_cons_pushfail ch now f m rest i s hne hp]
        exact ih (i + 1) k' s hcur' hk'
      · by_cases hu : f.updateFails.contains m.id = true
        · rw [replay_cons_updfail ch now f m rest i s hne hp hu]
          exact ih (i + 1) k' s hcur' hk'
        · rw [replay_cons_ok ch now f m rest i s hne hp hu]
          exact ih (i + 1) k' (updateDelivered s m.id now) hcur' hk'

/-- The record `SendMessage` builds before `insert_one`. -/
def mkMsg (st : ServerState) (content : String) (sender recipient : Nat)
    (delivered : Bool) (now : Nat) : Msg :=
  { id := st.nextId, content := content, delivered := delivered,
    recipient_id := recipient, sender_id := sender,
    timestamp := now, last_updated := now }

theorem stepCommand_send_insertfail (st : ServerState) (content : String)
    (sender recipient : Nat) (f : Faults) (now : Nat) (hins : f.insertFails = true) :
    stepCommand st (.sendMessage content sender recipient) f now =
      (st, [Event.log "Failed to save message",
            Event.reply ("Failed to send message: " ++ f.errText)], false) := by
  simp only [stepCommand]
  rw [if_pos hins]

theorem stepCommand_send_offline (st : ServerState) (content : String)
    (sender recipient : Nat) (f : Faults) (now : Nat)
    (hb : connContains st.connections recipient = false)
    (hins : f.insertFails = false) :
    stepCommand st (.sendMessage content sender recipient) f now =
      ({ st with
          store := st.store ++ [mkMsg st content sender recipient false now],
          nextId := st.nextId + 1 },
        [Event.reply "Message sent successfully"], false) := by
  simp only [stepCommand, mkMsg, hb]
  rw [if_neg (by simp [hins])]
  simp

theorem stepCommand_send_online (st : ServerState) (content : String)
    (sender recipient ch : Nat) (f : Faults) (now : Nat)
    (hg : connGet st.connections recipient = some ch)
    (hins : f.insertFails = false)
    (hpush : f.pushFails.contains st.nextId = false) :
    stepCommand st (.sendMessage content sender recipient) f now =
      ({ st with
          store := st.store ++ [mkMsg st content sender recipient true now],
          nextId := st.nextId + 1 },
        [Event.pushed ch (mkMsg st content sender recipient true now),
         Event.reply "Message sent successfully"], false) := by
  have hc : connContains st.connections recipient = true :=
    connContains_of_get _ _ _ hg
  have hp' : st.nextId ∉ f.pushFails := by simpa using hpush
  simp only [stepCommand, mkMsg, hc, hg]
  rw [if_neg (by simp [hins])]
  simp [hp']

theorem stepCommand_connect_conns (st : ServerState) (u ch : Nat) (f : Faults) (now : Nat) :
    (stepCommand st (.connect u ch) f now).1.connections = connInsert st.connections u ch := by
  simp only [stepCommand]
  split <;> rfl

theorem stepCommand_connect_findfail (st : ServerState) (u ch : Nat) (f : Faults) (now : Nat)
    (hfind : f.findFails = true) :
    stepCommand st (.connect u ch) f now =
      ({ st with connections := connInsert st.connections u ch },
        [Event.log "Error fetching undelivered messages"], false) := by
  simp only [stepCommand]
  rw [if_pos hfind]

theorem stepCommand_connect_ok (st : ServerState) (u ch : Nat) (f : Faults) (now : Nat)
    (hfind : f.findFails = false) :
    stepCommand st (.connect u ch) f now =
      ({ st with
          connections := connInsert st.connections u ch,
          store := (replay ch now f (backlog st.store u) 0 st.store).1 },
        (replay ch now f (backlog st.store u) 0 st.store).2.1,
        (replay ch now f (backlog st.store u) 0 st.store).2.2) := by
  simp only [stepCommand]
  rw [if_neg (by simp [hfind])]

theorem stepCommand_disconnect (st : ServerState) (u : Nat) (f : Faults) (now : Nat) :
    stepCommand st (.disconnect u) f now =
      ({ st with connections := connRemove st.connections u }, [], false) := rfl

theorem stepCommand_connect_nextId (st : ServerState) (u ch : Nat) (f : Faults) (now : Nat) :
    (stepCommand st (.connect u ch) f now).1.nextId = st.nextId := by
  simp only [stepCommand]
  split <;> rfl

theorem getById_append_left_none (s1 s2 : Store) (i : Nat)
    (h : ∀ r ∈ s1, r.id ≠ i) :
    getById (s1 ++ s2) i = getById s2 i := by
  induction s1 with
  | nil => rfl
  | cons x rest ih =>
    have hx : x.id ≠ i := h x (List.mem_cons_self x rest)
    simp only [List.cons_append]
    unfold getById
    rw [List.find?_cons_of_neg _ (by simp [hx])]
    exact ih fun r hr => h r (List.mem_cons_of_mem x hr)

theorem backlog_eq_nil (s : Store) (u : Nat) : backlog s u = [] := by
  unfold backlog
  apply List.filter_eq_nil_iff.mpr
  intro m hm
  simp

/-! The claims. -/

/-- C2: a `SendMessage` whose recipient is registered when the command is
processed persists the record with `delivered = true` in that same
operation, pushes the message onto the recipient's outbound channel, and
issues no separate delivered-flag update for the message. -/
theorem C2_online_immediate_delivery
    (st : ServerState) (content : String) (sender b ch : Nat) (f : Faults) (now : Nat)
    (hg : connGet st.connections b = some ch)
    (hins : f.insertFails = false)
    (hpush : f.pushFails.contains st.nextId = false) :
    (stepCommand st (.sendMessage content sender b) f now).1.store =
      st.store ++ [mkMsg st content sender b true now] ∧
    Event.pushed ch (mkMsg st content sender b true now) ∈
      (stepCommand st (.sendMessage content sender b) f now).2.1 ∧
    (∀ j n, Event.updated j n ∉ (stepCommand st (.sendMessage content sender b) f now).2.1) ∧
    (stepCommand st (.sendMessage content sender b) f now).2.2 = false := by
  rw [stepCommand_send_online st content sender b ch f now hg hins hpush]
  refine ⟨rfl, List.mem_cons_self _ _, ?_, rfl⟩
  intro j n hmem
  simp at hmem

/-- C2 witness: a concrete online recipient. -/
theorem C2_online_immediate_delivery_witness :
    connGet [(2, 7)] 2 = some 7 ∧
    ((stepCommand { connections := [(2, 7)], store := [], nextId := 0 }
        (.sendMessage "hi" 1 2) noFaults 4).1.store =
      [] ++ [mkMsg { connections := [(2, 7)], store := [], nextId := 0 } "hi" 1 2 true 4] ∧
    Event.pushed 7 (mkMsg { connections := [(2, 7)], store := [], nextId := 0 } "hi" 1 2 true 4) ∈
      (stepCommand { connections := [(2, 7)], store := [], nextId := 0 }
        (.sendMessage "hi" 1 2) noFaults 4).2.1 ∧
    (∀ j n, Event.updated j n ∉
      (stepCommand { connections := [(2, 7)], store := [], nextId := 0 }
        (.sendMessage "hi" 1 2) noFaults 4).2.1) ∧
    (stepCommand { connections := [(2, 7)], store := [], nextId := 0 }
        (.sendMessage "hi" 1 2) noFaults 4).2.2 = false) :=
  ⟨by decide,
    C2_online_immediate_delivery { connections := [(2, 7)], store := [], nextId := 0 }
      "hi" 1 2 7 noFaults 4 (by decide) (by decide) (by decide)⟩

/-- C4: if the store insert fails, the caller's one-shot reply carries a
failure outcome, no push onto the recipient's channel is attempted, and
the whole state — the connection map included — is left unchanged. -/
theorem C4_insert_failure_no_delivery
    (st : ServerState) (content : String) (sender recipient : Nat) (f : Faults) (now : Nat)
    (hins : f.insertFails = true) :
    stepCommand st (.sendMessage content sender recipient) f now =
      (st, [Event.log "Failed to save message",
            Event.reply ("Failed to send message: " ++ f.errText)], false) ∧
    (∀ ch m, Event.pushed ch m ∉
      (stepCommand st (.sendMessage content sender recipient) f now).2.1) ∧
    (stepCommand st (.sendMessage content sender recipient) f now).1.connections =
      st.connections := by
  have h := stepCommand_send_insertfail st content sender recipient f now hins
  refine ⟨h, ?_, by rw [h]⟩
  intro ch m hmem
  rw [h] at hmem
  simp at hmem

/-- C4 witness: a concrete failing insert. -/
theorem C4_insert_failure_no_delivery_witness :
    ({ noFaults with insertFails := true, errText := "boom" } : Faults).insertFails = true ∧
    (stepCommand { connections := [(2, 7)], store := [], nextId := 0 }
        (.sendMessage "hi" 1 2) { noFaults with insertFails := true, errText := "boom" } 4 =
      ({ connections := [(2, 7)], store := [], nextId := 0 },
        [Event.log "Failed to save message",
         Event.reply ("Failed to send message: " ++ "boom")], false) ∧
    (∀ ch m, Event.pushed ch m ∉
      (stepCommand { connections := [(2, 7)], store := [], nextId := 0 }
        (.sendMessage "hi" 1 2) { noFaults with insertFails := true, errText := "boom" } 4).2.1) ∧
    (stepCommand { connections := [(2, 7)], store := [], nextId := 0 }
        (.sendMessage "hi" 1 2) { noFaults with insertFails := true, errText := "boom" } 4).1.connections =
      [(2, 7)]) := by
  have h := C4_insert_failure_no_delivery
    { connections := [(2, 7)], store := [], nextId := 0 } "hi" 1 2
    { noFaults with insertFails := true, errText := "boom" } 4 rfl
  exact ⟨rfl, h.1, h.2.1, h.2.2⟩

/-- C7: an inbound `"message"` frame with a parsed payload invokes `send`;
when the outcome of the `send` call denotes success it relays the textual
outcome to the peer, and when it denotes failure it relays a structured
error frame (the textual outcome itself is a plain string either way, as
the spec's send-outcome note states). -/
theorem C7_message_outcome_relay
    (env : SessEnv) (now last : Nat) (cm : ChatMessage) :
    (∀ r, env.sendOutcome = .ok r →
      handleFrame env now last (.text (some { message_type := "message", data := some cm })) =
        ([OutAct.sendInvoked cm.content cm.recipient_id, OutAct.textOut r],
          env.textOk, last)) ∧
    (∀ e, env.sendOutcome = .error e →
      handleFrame env now last (.text (some { message_type := "message", data := some cm })) =
        ([OutAct.sendInvoked cm.content cm.recipient_id, OutAct.textOut (errorFrame e)],
          env.textOk, last)) := by
  constructor
  · intro r hr
    simp [handleFrame, hr]
  · intro e he
    simp [handleFrame, he]

/-- C7 witness: a success outcome and a failure outcome, both relayed. -/
theorem C7_message_outcome_relay_witness :
    handleFrame { sendOutcome := .ok "Message sent successfully", textOk := true, pongOk := true }
        3 1 (.text (some { message_type := "message", data := some { content := "hi", recipient_id := 2 } })) =
      ([OutAct.sendInvoked "hi" 2, OutAct.textOut "Message sent successfully"], true, 1) ∧
    handleFrame { sendOutcome := .error "Failed to receive response", textOk := true, pongOk := true }
        3 1 (.text (some { message_type := "message", data := some { content := "hi", recipient_id := 2 } })) =
      ([OutAct.sendInvoked "hi" 2, OutAct.textOut (errorFrame "Failed to receive response")], true, 1) :=
  ⟨(C7_message_outcome_relay
      { sendOutcome := .ok "Message sent successfully", textOk := true, pongOk := true }
      3 1 { content := "hi", recipient_id := 2 }).1 "Message sent successfully" rfl,
    (C7_message_outcome_relay
      { sendOutcome := .error "Failed to receive response", textOk := true, pongOk := true }
      3 1 { content := "hi", recipient_id := 2 }).2 "Failed to receive response" rfl⟩

/-- C8: a parsed envelope whose `message_type` is neither `"message"` nor
`"ping"` draws a structured error reply and the loop continues; a text
frame that does not parse draws no reply at all and the loop continues. -/
theorem C8_unknown_and_malformed_nonfatal
    (env : SessEnv) (now last : Nat) (mt : String) (d : Option ChatMessage)
    (hm : mt ≠ "message") (hp : mt ≠ "ping") (ht : env.textOk = true) :
    handleFrame env now last (.text (some { message_type := mt, data := d })) =
      ([OutAct.textOut unknownTypeFrame], true, last) ∧
    handleFrame env now last (.text none) = ([], true, last) := by
  constructor
  · simp [handleFrame, hm, hp, ht]
  · rfl

/-- C8 witness: a concrete unrecognized envelope. -/
theorem C8_unknown_and_malformed_nonfatal_witness :
    ("bogus" : String) ≠ "message" ∧ ("bogus" : String) ≠ "ping" ∧
    (handleFrame { sendOutcome := .ok "", textOk := true, pongOk := true } 3 1
        (.text (some { message_type := "bogus", data := none })) =
      ([OutAct.textOut unknownTypeFrame], true, 1) ∧
    handleFrame { sendOutcome := .ok "", textOk := true, pongOk := true } 3 1
        (.text none) = ([], true, 1)) :=
  ⟨by decide, by decide,
    C8_unknown_and_malformed_nonfatal
      { sendOutcome := .ok "", textOk := true, pongOk := true } 3 1 "bogus" none
      (by decide) (by decide) rfl⟩

/-- C9: at a heartbeat tick, if the time elapsed since the last observed
liveness signal exceeds `CLIENT_TIMEOUT`, the session is closed and the
outbound duty's loop breaks — independently of any inbound activity,
since the tick branch consults only the shared `last_heartbeat`. -/
theorem C9_heartbeat_timeout
    (pingOk : Bool) (now last : Nat) (h : now - last > clientTimeout) :
    tickStep pingOk now last = ([OutAct.closeOut], false) := by
  unfold tickStep
  rw [if_pos h]

/-- C9 witness: eleven seconds of silence close the session. -/
theorem C9_heartbeat_timeout_witness :
    (11 : Nat) - 0 > clientTimeout ∧
    tickStep true 11 0 = ([OutAct.closeOut], false) :=
  ⟨by decide, C9_heartbeat_timeout true 11 0 (by decide)⟩

/-- C10: an envelope that parses with `message_type = "message"` but whose
payload does not deserialize into a `ChatMessage` is silently dropped:
no `send` is invoked, nothing is sent to the peer, and the loop
continues. -/
theorem C10_unparseable_chat_payload_dropped
    (env : SessEnv) (now last : Nat) :
    handleFrame env now last (.text (some { message_type := "message", data := none })) =
      ([], true, last) := rfl

/-- C6: disconnecting an unregistered user is a no-op that does not error,
connecting the same user twice leaves exactly one registry entry holding
the second channel (last-writer-wins), and a `SendMessage` processed after
the second connect routes its push to the second channel, never the
first. -/
theorem C6_registry_idempotence_lww
    (st st2 : ServerState) (u ch1 ch2 : Nat) (fd f1 f2 f3 : Faults)
    (nd n1 n2 n3 : Nat) (content : String) (sender : Nat)
    (hdc : connContains st.connections u = false)
    (hst2 : st2 = (stepCommand (stepCommand st (.connect u ch1) f1 n1).1
      (.connect u ch2) f2 n2).1)
    (hins : f3.insertFails = false)
    (hpush : f3.pushFails.contains st.nextId = false) :
    stepCommand st (.disconnect u) fd nd = (st, [], false) ∧
    st2.connections = connInsert (connInsert st.connections u ch1) u ch2 ∧
    connGet st2.connections u = some ch2 ∧
    (st2.connections.filter (fun p => p.1 == u)).length = 1 ∧
    (stepCommand st2 (.sendMessage content sender u) f3 n3).2.1 =
      [Event.pushed ch2 (mkMsg st2 content sender u true n3),
       Event.reply "Message sent successfully"] ∧
    (∀ ch' m', Event.pushed ch' m' ∈
      (stepCommand st2 (.sendMessage content sender u) f3 n3).2.1 → ch' = ch2) := by
  have hconns : st2.connections = connInsert (connInsert st.connections u ch1) u ch2 := by
    rw [hst2, stepCommand_connect_conns, stepCommand_connect_conns]
  have hget : connGet st2.connections u = some ch2 := by
    rw [hconns]
    exact connGet_insert_self _ u ch2
  have hnid : st2.nextId = st.nextId := by
    rw [hst2, stepCommand_connect_nextId, stepCommand_connect_nextId]
  have hsend := stepCommand_send_online st2 content sender u ch2 f3 n3 hget hins
    (by rw [hnid]; exact hpush)
  refine ⟨?_, hconns, hget, ?_, ?_, ?_⟩
  · rw [stepCommand_disconnect, connRemove_absent st.connections u hdc]
  · rw [hconns]
    exact connInsert_unique_entry _ u ch2
  · rw [hsend]
  · intro ch' m' hmem
    rw [hsend] at hmem
    simp only [List.mem_cons, List.not_mem_nil, or_false] at hmem
    rcases hmem with h | h
    · cases h
      rfl
    · cases h

/-- C6 witness: a concrete double connect followed by a send. -/
theorem C6_registry_idempotence_lww_witness :
    connContains ([] : Conns) 3 = false ∧
    (stepCommand { connections := [], store := [], nextId := 0 } (.disconnect 3) noFaults 0 =
      ({ connections := [], store := [], nextId := 0 }, [], false) ∧
    (stepCommand (stepCommand { connections := [], store := [], nextId := 0 }
        (.connect 3 4) noFaults 1).1 (.connect 3 5) noFaults 2).1.connections =
      connInsert (connInsert [] 3 4) 3 5 ∧
    connGet (stepCommand (stepCommand { connections := [], store := [], nextId := 0 }
        (.connect 3 4) noFaults 1).1 (.connect 3 5) noFaults 2).1.connections 3 = some 5 ∧
    (((stepCommand (stepCommand { connections := [], store := [], nextId := 0 }
        (.connect 3 4) noFaults 1).1 (.connect 3 5) noFaults 2).1.connections).filter
      (fun p => p.1 == 3)).length = 1 ∧
    (stepCommand (stepCommand (stepCommand { connections := [], store := [], nextId := 0 }
        (.connect 3 4) noFaults 1).1 (.connect 3 5) noFaults 2).1
        (.sendMessage "x" 9 3) noFaults 6).2.1 =
      [Event.pushed 5 (mkMsg (stepCommand (stepCommand { connections := [], store := [], nextId := 0 }
          (.connect 3 4) noFaults 1).1 (.connect 3 5) noFaults 2).1 "x" 9 3 true 6),
       Event.reply "Message sent successfully"] ∧
    (∀ ch' m', Event.pushed ch' m' ∈
      (stepCommand (stepCommand (stepCommand { connections := [], store := [], nextId := 0 }
          (.connect 3 4) noFaults 1).1 (.connect 3 5) noFaults 2).1
          (.sendMessage "x" 9 3) noFaults 6).2.1 → ch' = 5)) :=
  ⟨by decide,
    C6_registry_idempotence_lww { connections := [], store := [], nextId := 0 }
      (stepCommand (stepCommand { connections := [], store := [], nextId := 0 }
        (.connect 3 4) noFaults 1).1 (.connect 3 5) noFaults 2).1
      3 4 5 noFaults noFaults noFaults noFaults 0 1 2 6 "x" 9
      (by decide) rfl (by decide) (by decide)⟩

/-- The initial state of the C1 counterexample: one undelivered message
for user 7 sits in the store and nobody is connected. -/
def C1state : ServerState :=
  { connections := [],
    store := [{ id := 1, content := "hi", delivered := false, recipient_id := 7,
                sender_id := 3, timestamp := 0, last_updated := 0 }],
    nextId := 2 }

/-- The C1 counterexample commands: user 7 connects while the replay
cursor errors on its first `try_next`, then someone sends user 7 a
message. -/
def C1cmds : List (Command × Faults × Nat) :=
  [(Command.connect 7 5, { noFaults with cursorFailsAt := some 0 }, 10),
   (Command.sendMessage "later" 3 7, noFaults, 11)]

/-- C1 counterexample: a cursor-iteration failure during the Connect
backlog replay makes the registry loop return an error, so the consumer
loop terminates and the subsequent `SendMessage` is never processed —
contradicting the claim that every message-store failure during replay
aborts only that replay and the loop keeps processing commands. -/
theorem C1_cursor_failure_kills_registry :
    (runServer C1state C1cmds).2.2 = true ∧
    Event.reply "Message sent successfully" ∉ (runServer C1state C1cmds).2.1 := by
  decide

/-- C1 (amended): a store *query* failure (`find` returning an error)
aborts only that replay — it is logged, the connect does not fail, and
the consumer loop continues with the remaining commands — but a failure
while *iterating the result cursor* propagates out of `run` via `?` and
terminates the registry consumer loop. -/
theorem C1_store_failure_scope
    (st : ServerState) (u ch : Nat) (f g : Faults) (now : Nat) (i : Nat)
    (rest : List (Command × Faults × Nat))
    (hf : f.findFails = true)
    (hg : g.findFails = false) (hgc : g.cursorFailsAt = some i)
    (hi : i ≤ (backlog st.store u).length) :
    stepCommand st (.connect u ch) f now =
      ({ st with connections := connInsert st.connections u ch },
        [Event.log "Error fetching undelivered messages"], false) ∧
    runServer st ((Command.connect u ch, f, now) :: rest) =
      ((runServer { st with connections := connInsert st.connections u ch } rest).1,
        Event.log "Error fetching undelivered messages" ::
          (runServer { st with connections := connInsert st.connections u ch } rest).2.1,
        (runServer { st with connections := connInsert st.connections u ch } rest).2.2) ∧
    (stepCommand st (.connect u ch) g now).2.2 = true := by
  have hstep := stepCommand_connect_findfail st u ch f now hf
  refine ⟨hstep, ?_, ?_⟩
  · simp [runServer, hstep]
  · rw [stepCommand_connect_ok st u ch g now hg]
    exact replay_fatal_of_cursor ch now g (backlog st.store u) 0 i st.store
      (by simpa using hgc) hi

/-- C1 (amended) witness: concrete find failure vs cursor failure. -/
theorem C1_store_failure_scope_witness :
    ({ noFaults with findFails := true } : Faults).findFails = true ∧
    ({ noFaults with cursorFailsAt := some 0 } : Faults).findFails = false ∧
    ({ noFaults with cursorFailsAt := some 0 } : Faults).cursorFailsAt = some 0 ∧
    0 ≤ (backlog ([] : Store) 7).length ∧
    (stepCommand { connections := [], store := [], nextId := 0 } (.connect 7 5)
        { noFaults with findFails := true } 0 =
      ({ connections := connInsert [] 7 5, store := [], nextId := 0 },
        [Event.log "Error fetching undelivered messages"], false) ∧
    runServer { connections := [], store := [], nextId := 0 }
        [(Command.connect 7 5, { noFaults with findFails := true }, 0)] =
      ((runServer { connections := connInsert [] 7 5, store := [], nextId := 0 } []).1,
        Event.log "Error fetching undelivered messages" ::
          (runServer { connections := connInsert [] 7 5, store := [], nextId := 0 } []).2.1,
        (runServer { connections := connInsert [] 7 5, store := [], nextId := 0 } []).2.2) ∧
    (stepCommand { connections := [], store := [], nextId := 0 } (.connect 7 5)
        { noFaults with cursorFailsAt := some 0 } 0).2.2 = true) :=
  ⟨rfl, rfl, rfl, by decide,
    C1_store_failure_scope { connections := [], store := [], nextId := 0 }
      7 5 { noFaults with findFails := true } { noFaults with cursorFailsAt := some 0 }
      0 0 [] rfl rfl rfl (by decide)⟩

/-- C3 (code bug): connecting never replays anything, because the find
filter compares a BSON String against the Binary-stored `recipient_id`:
the replay of any Connect emits no events and leaves the store
untouched; in particular, on the failing input — "hi" sent from user 1
to the offline user 2, then user 2 connecting — the persisted record is
never pushed and remains `delivered = false` instead of being delivered
and flipped as the claim states. -/
theorem C3_offline_messages_never_replayed :
    (∀ (st : ServerState) (u ch now : Nat),
      (stepCommand st (.connect u ch) noFaults now).2.1 = [] ∧
      (stepCommand st (.connect u ch) noFaults now).1.store = st.store) ∧
    ((stepCommand { connections := [], store := [], nextId := 0 }
        (.sendMessage "hi" 1 2) noFaults 3).1.store =
      [mkMsg { connections := [], store := [], nextId := 0 } "hi" 1 2 false 3] ∧
    (stepCommand (stepCommand { connections := [], store := [], nextId := 0 }
        (.sendMessage "hi" 1 2) noFaults 3).1 (.connect 2 9) noFaults 5).2.1 = [] ∧
    getById (stepCommand (stepCommand { connections := [], store := [], nextId := 0 }
        (.sendMessage "hi" 1 2) noFaults 3).1 (.connect 2 9) noFaults 5).1.store 0 =
      some (mkMsg { connections := [], store := [], nextId := 0 } "hi" 1 2 false 3)) := by
  constructor
  · intro st u ch now
    have h := stepCommand_connect_ok st u ch noFaults now rfl
    rw [backlog_eq_nil st.store u,
      replay_nil_ok ch now noFaults 0 st.store (by simp [noFaults])] at h
    rw [h]
    exact ⟨rfl, rfl⟩
  · exact ⟨by decide, by decide, by decide⟩

/-- The record of the C5 failing input: message 0 awaiting user 2. -/
def C5msg : Msg :=
  { id := 0, content := "hi", delivered := false, recipient_id := 2,
    sender_id := 1, timestamp := 0, last_updated := 0 }

/-- The initial state of the C5 failing input. -/
def C5state : ServerState :=
  { connections := [], store := [C5msg], nextId := 1 }

/-- The fault schedule of the C5 failing input: the push of record 0 fails. -/
def C5faults : Faults :=
  { noFaults with pushFails := [0] }

/-- C5 (code bug): the at-least-once replay behavior the claim describes
is unreachable, because the find filter never matches the Binary-stored
`recipient_id`: with an undelivered record for user 2 in the store and a
schedule failing that record's push, the first connect offers the record
nowhere — no push, no failed-push log, no update, no event at all — the
record stays `delivered = false` untouched, and the next connect offers
it nothing again rather than re-offering the record. -/
theorem C5_no_record_ever_offered :
    (stepCommand C5state (.connect 2 4) C5faults 7).2.1 = [] ∧
    (stepCommand (stepCommand C5state (.connect 2 4) C5faults 7).1
      (.connect 2 6) noFaults 8).2.1 = [] ∧
    getById (stepCommand (stepCommand C5state (.connect 2 4) C5faults 7).1
      (.connect 2 6) noFaults 8).1.store 0 = some C5msg := by
  decide

end ChatV2
